import Mathlib

/-!
A shallow embedding of `src/mcp_server/main.py` (StockMarketMCP).

The module exposes two MCP tools over a TradingView screener payload:
a classifier from a numeric score to a recommendation label
(`_create_recommendation`), a payload-to-DataFrame builder
(`_create_response_df`), a date-keyed CSV cache (`_load_df`), and two
public operations (`get_stock_recommendations`, `check_stock_values`).

Python scalars that can appear in a JSON payload cell are modelled by
`Val` (a rational number, a text, or null); DataFrames by an explicit
header plus row-major cell lists; the filesystem state at the one cache
path by `FS`.  Errors carry the exception class and the exact message
string raised in the source.
-/

namespace TVMCP

/-- Message of the TradingviewError raised by `_get_tradingview_response`. -/
def msgConnect : String := "Unable to connect to Tradingview API server"

/-- Message of the ValueError raised by `_create_recommendation` on a
non-numeric input. -/
def msgBadValue : String := "Unable to create recommendation"

/-- Message of the ValueError raised by `_create_recommendation` when no
interval matches. -/
def msgNoBucket : String := "Unable to create recommendation column"

/-- Message raised by `_create_response_df` when the data key is missing
or its value is falsy. -/
def msgDataKey : String := "Unable to find the data key to parse"

/-- Message raised by `_create_response_df` when no entry has a truthy
field-values array. -/
def msgNoRows : String := "Unable to find the rows"

/-- Message of the TradingviewError re-raised by the bare except of
`_create_response_df`. -/
def msgParse : String := "Unable to parse the data from API response"

/-- Message of the TradingviewError raised by `get_stock_recommendations`. -/
def msgFetch : String := "Unable to fetch the data from tradingview"

/-- Message of the TradingviewError raised by `check_stock_values`. -/
def msgFind : String := "Unable to find the stock values"

/-- Fragment of the ValueError message pandas raises when a row is longer
than the column schema. -/
def msgShape : String := "columns passed, passed data had more columns"

/-- The column name holding the ticker symbol. -/
def nameCol : String := "name"

/-- The column name holding the aggregate score. -/
def recAllCol : String := "Recommend.All"

/-- The derived column attached by `_create_response_df`. -/
def recommendationCol : String := "recommendation"

/-- A scalar cell value of the payload / DataFrame: a (finite) number, a
text, or null (Python None / NaN). -/
inductive Val where
  | num (q : ℚ)
  | str (s : String)
  | null
deriving DecidableEq

/-- A Python exception as observed by a caller: its class and message.
`tradingview` is the repo's own TradingviewError class; the others are
builtin exception classes raised by the runtime or by pandas. -/
inductive PyErr where
  | tradingview (msg : String)
  | valueError (msg : String)
  | keyError (k : String)
  | isADirectoryError
  | fileExistsError
deriving DecidableEq

/-- The strong_buy label. -/
def strongBuyLbl : String := "strong_buy"

/-- The buy label. -/
def buyLbl : String := "buy"

/-- The neutral label. -/
def neutralLbl : String := "neutral"

/-- The sell label. -/
def sellLbl : String := "sell"

/-- The strong_sell label. -/
def strongSellLbl : String := "strong_sell"

/-- The boundary 0.5, built in lowest terms so that kernel evaluation of
the classifier on concrete scores goes through; `qHalf_eq` ties it to the
literal 1/2. -/
def qHalf : ℚ := ⟨1, 2, by norm_num, by norm_num⟩

/-- The boundary 0.1 in lowest terms; `qTenth_eq` ties it to 1/10. -/
def qTenth : ℚ := ⟨1, 10, by norm_num, by norm_num⟩

/-- `qHalf` is the rational one half. -/
lemma qHalf_eq : (1 : ℚ) / 2 = qHalf := by
  rw [qHalf, Rat.mk'_eq_divInt, Rat.divInt_eq_div]
  norm_num

/-- `qTenth` is the rational one tenth. -/
lemma qTenth_eq : (1 : ℚ) / 10 = qTenth := by
  rw [qTenth, Rat.mk'_eq_divInt, Rat.divInt_eq_div]
  norm_num

/-- The label/interval table of `_create_recommendation`, in the fixed
insertion order of the Python dict.  The bounds are 0.5, 1.0, 0.1, -0.1,
-0.5, -1.0 as in the source; `value_mapping_spec` below restates the
table with literal fractions. -/
def value_mapping : List (String × ℚ × ℚ) :=
  [(strongBuyLbl, qHalf, 1),
   (buyLbl, qTenth, qHalf),
   (neutralLbl, -qTenth, qTenth),
   (sellLbl, -qHalf, -qTenth),
   (strongSellLbl, -1, -qHalf)]

/-- The interval table, written with the literal fractions of the
source. -/
lemma value_mapping_spec :
    value_mapping =
      [(strongBuyLbl, (1 : ℚ) / 2, 1),
       (buyLbl, (1 : ℚ) / 10, (1 : ℚ) / 2),
       (neutralLbl, -((1 : ℚ) / 10), (1 : ℚ) / 10),
       (sellLbl, -((1 : ℚ) / 2), -((1 : ℚ) / 10)),
       (strongSellLbl, -1, -((1 : ℚ) / 2))] := by
  rw [value_mapping, qHalf_eq, qTenth_eq]

/-- The for-loop of `_create_recommendation`: return the first label whose
closed interval contains the value. -/
def findBucket (v : ℚ) : List (String × ℚ × ℚ) → Option String
  | [] => none
  | (lbl, lo, hi) :: rest =>
      if lo ≤ v ∧ v ≤ hi then some lbl else findBucket v rest

/-- `_create_recommendation(value)`.  A non-numeric input (text or None)
fails the isinstance check; a numeric input is matched against
`value_mapping` in order, and falling through every interval raises the
second ValueError. -/
def create_recommendation : Val → Except PyErr String
  | Val.num v =>
      match findBucket v value_mapping with
      | some lbl => Except.ok lbl
      | none => Except.error (PyErr.valueError msgNoBucket)
  | Val.str _ => Except.error (PyErr.valueError msgBadValue)
  | Val.null => Except.error (PyErr.valueError msgBadValue)

/-- One entry of the payload's data collection: `row.get("d", None)`
yields either the nested field-values array or None. -/
structure Entry where
  d : Option (List Val)
deriving DecidableEq

/-- The parsed JSON body: `api_json.get("data", None)` yields either the
top-level data collection or None. -/
structure Payload where
  data : Option (List Entry)
deriving DecidableEq

/-- Python truthiness of `row.get("d", None)`: None and the empty list
are falsy. -/
def truthyD : Option (List Val) → Bool
  | none => false
  | some [] => false
  | some (_ :: _) => true

/-- The list comprehension of `_create_response_df`:
`[row.get("d", None) for row in api_data if row.get("d", None)]`. -/
def extractRows (entries : List Entry) : List (List Val) :=
  (entries.filter fun e => truthyD e.d).map fun e => e.d.getD []

/-- A pandas DataFrame: an ordered column header and row-major cells. -/
structure DataFrame where
  cols : List String
  rows : List (List Val)
deriving DecidableEq

/-- `pd.DataFrame(rows, columns=COLUMNS)`: a row longer than the schema
raises a ValueError; a shorter row is padded with NaN. -/
def mkDataFrame (cols : List String) (rows : List (List Val)) :
    Except PyErr DataFrame :=
  if rows.all fun r => r.length ≤ cols.length then
    Except.ok
      ⟨cols, rows.map fun r =>
        r ++ List.replicate (cols.length - r.length) Val.null⟩
  else
    Except.error (PyErr.valueError msgShape)

/-- `df.cols.findIdx? (· == c)`: the position of a column label, as in a
pandas column lookup; a miss raises a KeyError. -/
def colIdx (df : DataFrame) (c : String) : Except PyErr Nat :=
  match df.cols.findIdx? (fun x => x == c) with
  | some i => Except.ok i
  | none => Except.error (PyErr.keyError c)

/-- `df["recommendation"] = df["Recommend.All"].apply(_create_recommendation)`:
classify the score cell of every row and append the result as a new
column; the first per-row failure aborts. -/
def addRecommendation (df : DataFrame) : Except PyErr DataFrame := do
  let i ← colIdx df recAllCol
  let recs ← df.rows.mapM fun r => create_recommendation (r.getD i Val.null)
  return ⟨df.cols ++ [recommendationCol],
          (df.rows.zip recs).map fun p => p.1 ++ [Val.str p.2]⟩

/-- The body of the try block of `_create_response_df`, keeping each raise
site distinguishable: propagate a fetch failure, reject a falsy data
collection, extract the truthy field-values arrays, reject an empty rows
list, build the DataFrame and attach the recommendation column. -/
def create_response_df_inner (fetch : Except PyErr Payload)
    (columns : List String) : Except PyErr DataFrame := do
  let payload ← fetch
  match payload.data with
  | none => Except.error (PyErr.tradingview msgDataKey)
  | some [] => Except.error (PyErr.tradingview msgDataKey)
  | some entries =>
      let rows := extractRows entries
      if rows.isEmpty then Except.error (PyErr.tradingview msgNoRows)
      else do
        let df ← mkDataFrame columns rows
        addRecommendation df

/-- `_create_response_df()`: the bare `except:` catches every failure of
the try block, the repo's own TradingviewErrors included, and re-raises
the one generic parse error. -/
def create_response_df (fetch : Except PyErr Payload)
    (columns : List String) : Except PyErr DataFrame :=
  match create_response_df_inner fetch columns with
  | Except.ok df => Except.ok df
  | Except.error _ => Except.error (PyErr.tradingview msgParse)

/-- What the filesystem holds at the cache path: a regular file storing a
serialized DataFrame, or a directory. -/
inductive FSEntry where
  | file (t : DataFrame)
  | dir
deriving DecidableEq

/-- The filesystem state relevant to `_load_df`: the entry at the one
cache path (None when the path does not exist) and a counter of network
fetches, used to state the no-retry property. -/
structure FS where
  entry : Option FSEntry
  fetchCount : Nat
deriving DecidableEq

/-- `path.mkdir(exist_ok=False)`: fails with FileExistsError when the
path exists, otherwise creates a directory there. -/
def mkdir (fs : FS) : Except PyErr FS :=
  match fs.entry with
  | some _ => Except.error PyErr.fileExistsError
  | none => Except.ok { fs with entry := some FSEntry.dir }

/-- `df.to_csv(path, index=False)`: opening a directory for writing fails
with IsADirectoryError; otherwise the file now stores the table (the
durable tabular serialization is modelled as faithful). -/
def to_csv (df : DataFrame) (fs : FS) : Except PyErr FS :=
  match fs.entry with
  | some FSEntry.dir => Except.error PyErr.isADirectoryError
  | _ => Except.ok { fs with entry := some (FSEntry.file df) }

/-- `pd.read_csv(path)` on an existing path: reading a directory fails
with IsADirectoryError; a file yields the stored table. -/
def read_csv (fs : FS) : Except PyErr DataFrame :=
  match fs.entry with
  | some (FSEntry.file t) => Except.ok t
  | _ => Except.error PyErr.isADirectoryError

/-- `_load_df(path)`.  When the path does not exist: mkdir at the path,
build the DataFrame (one network fetch, counted), persist it with
`to_csv`, return it.  When the path exists: read it back as CSV.  The
result pairs the returned-or-raised outcome with the filesystem state
after the call. -/
def load_df (fetch : Except PyErr Payload) (columns : List String)
    (fs : FS) : Except PyErr DataFrame × FS :=
  if fs.entry.isNone then
    match mkdir fs with
    | Except.error e => (Except.error e, fs)
    | Except.ok fs1 =>
        let fs2 := { fs1 with fetchCount := fs1.fetchCount + 1 }
        match create_response_df fetch columns with
        | Except.error e => (Except.error e, fs2)
        | Except.ok df =>
            match to_csv df fs2 with
            | Except.error e => (Except.error e, fs2)
            | Except.ok fs3 => (Except.ok df, fs3)
  else
    (read_csv fs, fs)

/-- The fixed human-readable preamble of `get_stock_recommendations`. -/
def preamble : String :=
  "The following recommendations are based on technical analysis, combining the ratings of multiple technical indicators (on a 1-day interval) to help traders and investors identify potential profitable trades more easily."

/-- Python repr of a scalar cell, as the f-string serializes it. -/
def pyRepr : Val → String
  | Val.num q => toString q
  | Val.str s => "\x27" ++ s ++ "\x27"
  | Val.null => "nan"

/-- Python repr of one record dict of
`df[["name", "recommendation"]].to_dict(orient="records")`. -/
def renderRecord (r : Val × Val) : String :=
  "\x7b\x27name\x27: " ++ pyRepr r.1 ++
    ", \x27recommendation\x27: " ++ pyRepr r.2 ++ "\x7d"

/-- Python repr of the record list. -/
def renderRecords (rs : List (Val × Val)) : String :=
  "[" ++ String.intercalate ", " (rs.map renderRecord) ++ "]"

/-- `df[["name", "recommendation"]].to_dict(orient="records")`: project
every row, in order, onto its name and recommendation cells. -/
def projectRecords (df : DataFrame) : Except PyErr (List (Val × Val)) := do
  let ni ← colIdx df nameCol
  let ri ← colIdx df recommendationCol
  return df.rows.map fun r => (r.getD ni Val.null, r.getD ri Val.null)

/-- `get_stock_recommendations()`: load the cached DataFrame, project the
name and recommendation columns to records and concatenate the preamble
with their serialization; any failure inside the try block surfaces as
the one TradingviewError with message `msgFetch`. -/
def get_stock_recommendations (fetch : Except PyErr Payload)
    (columns : List String) (fs : FS) : Except PyErr String × FS :=
  let (r, fs1) := load_df fetch columns fs
  match r with
  | Except.error _ => (Except.error (PyErr.tradingview msgFetch), fs1)
  | Except.ok df =>
      match projectRecords df with
      | Except.error _ => (Except.error (PyErr.tradingview msgFetch), fs1)
      | Except.ok recs => (Except.ok (preamble ++ renderRecords recs), fs1)

/-- `df["name"].isin(tickers)`: one Boolean per row, true when the row's
name cell equals one of the tickers (a non-text cell matches none). -/
def isinMask (df : DataFrame) (ni : Nat) (tickers : List String) :
    List Bool :=
  df.rows.map fun r =>
    match r.getD ni Val.null with
    | Val.str s => tickers.contains s
    | _ => false

/-- `df[mask]`: boolean filtering keeps each selected row together with
its original integer index label. -/
def booleanFilter (rows : List (List Val)) (mask : List Bool) :
    List (Nat × List Val) :=
  (rows.enum.zip mask).filterMap fun p =>
    if p.2 then some p.1 else none

/-- `df_filtered.to_dict()` (default orient): a mapping from each column
name, in DataFrame column order, to the mapping from the retained index
labels to that column's cells. -/
def toDictCols (cols : List String) (labeled : List (Nat × List Val)) :
    List (String × List (Nat × Val)) :=
  cols.enum.map fun jc =>
    (jc.2, labeled.map fun ir => (ir.1, ir.2.getD jc.1 Val.null))

/-- The body of the try block of `check_stock_values`: load, filter by
membership of the name cell in the tickers, export column-major. -/
def check_stock_values_inner (tickers : List String)
    (fetch : Except PyErr Payload) (columns : List String) (fs : FS) :
    Except PyErr (List (String × List (Nat × Val))) × FS :=
  let (r, fs1) := load_df fetch columns fs
  match r with
  | Except.error e => (Except.error e, fs1)
  | Except.ok df =>
      match colIdx df nameCol with
      | Except.error e => (Except.error e, fs1)
      | Except.ok ni =>
          (Except.ok
            (toDictCols df.cols
              (booleanFilter df.rows (isinMask df ni tickers))), fs1)

/-- `check_stock_values(tickers)`: any failure inside the try block
surfaces as the one TradingviewError with message `msgFind`. -/
def check_stock_values (tickers : List String)
    (fetch : Except PyErr Payload) (columns : List String) (fs : FS) :
    Except PyErr (List (String × List (Nat × Val))) × FS :=
  let (r, fs1) := check_stock_values_inner tickers fetch columns fs
  match r with
  | Except.error _ => (Except.error (PyErr.tradingview msgFind), fs1)
  | Except.ok d => (Except.ok d, fs1)

/-! Concrete fixtures used by the closed evaluations below. -/

/-- Ticker fixture. -/
def tAAPL : String := "AAPL"

/-- Ticker fixture. -/
def tZZZZ : String := "ZZZZ"

/-- Ticker fixture. -/
def tAAA : String := "AAA"

/-- Ticker fixture. -/
def tBBB : String := "BBB"

/-- Ticker fixture. -/
def tCCC : String := "CCC"

/-- A two-column schema fixture standing for the configured COLUMNS. -/
def colsTest : List String := [nameCol, recAllCol]

/-- A payload whose parsed body has no data key. -/
def payloadNoData : Payload := ⟨none⟩

/-- A payload whose data collection is present but empty. -/
def payloadEmptyData : Payload := ⟨some []⟩

/-- A valid entry fixture. -/
def eAAA : Entry := ⟨some [Val.str tAAA, Val.num 1]⟩

/-- A valid entry fixture. -/
def eBBB : Entry := ⟨some [Val.str tBBB, Val.num 0]⟩

/-- A valid entry fixture. -/
def eCCC : Entry := ⟨some [Val.str tCCC, Val.num (-1)]⟩

/-- An entry with no field-values array at all. -/
def eMissing : Entry := ⟨none⟩

/-- An entry that carries its field-values array, but an empty one. -/
def eEmptyArr : Entry := ⟨some []⟩

/-- Three valid entries and one entry missing its field-values array. -/
def payload31 : Payload := ⟨some [eAAA, eMissing, eBBB, eCCC]⟩

/-- One valid entry next to one entry with a present-but-empty array. -/
def payloadPresentEmpty : Payload := ⟨some [eAAA, eEmptyArr]⟩

/-- The DataFrame `_create_response_df` builds from `payload31`. -/
def df31 : DataFrame :=
  ⟨[nameCol, recAllCol, recommendationCol],
   [[Val.str tAAA, Val.num 1, Val.str strongBuyLbl],
    [Val.str tBBB, Val.num 0, Val.str neutralLbl],
    [Val.str tCCC, Val.num (-1), Val.str strongSellLbl]]⟩

/-- The DataFrame built from `payloadPresentEmpty`: only the first entry
survives. -/
def dfOnlyA : DataFrame :=
  ⟨[nameCol, recAllCol, recommendationCol],
   [[Val.str tAAA, Val.num 1, Val.str strongBuyLbl]]⟩

/-- A cached table fixture holding AAPL at row index 2. -/
def tableAAPL : DataFrame :=
  ⟨[nameCol, recAllCol],
   [[Val.str tAAA, Val.num 0],
    [Val.str tBBB, Val.num 0],
    [Val.str tAAPL, Val.num 1]]⟩

/-- A cached table fixture with name and recommendation columns. -/
def tableRec : DataFrame :=
  ⟨[nameCol, recommendationCol],
   [[Val.str tAAPL, Val.str buyLbl], [Val.str tBBB, Val.str sellLbl]]⟩

/-- A successful fetch outcome. -/
def fetchOK : Except PyErr Payload := Except.ok payload31

/-- A failed fetch outcome: the TradingviewError of
`_get_tradingview_response`. -/
def fetchFail : Except PyErr Payload :=
  Except.error (PyErr.tradingview msgConnect)

/-- The filesystem state where the cache path does not exist. -/
def fs0 : FS := ⟨none, 0⟩

/-- The filesystem state where the cache path is a directory. -/
def fsDir : FS := ⟨some FSEntry.dir, 0⟩

/-- The filesystem state where the cache path holds a file with table
`t`. -/
def fsFile (t : DataFrame) : FS := ⟨some (FSEntry.file t), 0⟩

/-! Helper lemmas about the classifier's interval scan. -/

/-- The first interval wins on [1/2, 1]. -/
lemma findBucket_strong_buy (q : ℚ) (h1 : (1 : ℚ) / 2 ≤ q) (h2 : q ≤ 1) :
    findBucket q value_mapping = some strongBuyLbl := by
  simp only [value_mapping, findBucket]
  rw [← qHalf_eq, ← qTenth_eq]
  rw [if_pos ⟨h1, h2⟩]

/-- The second interval wins on [1/10, 1/2). -/
lemma findBucket_buy (q : ℚ) (h1 : (1 : ℚ) / 10 ≤ q)
    (h2 : q < (1 : ℚ) / 2) :
    findBucket q value_mapping = some buyLbl := by
  simp only [value_mapping, findBucket]
  rw [← qHalf_eq, ← qTenth_eq]
  rw [if_neg (by rintro ⟨a, b⟩; linarith), if_pos ⟨h1, le_of_lt h2⟩]

/-- The third interval wins on [-1/10, 1/10). -/
lemma findBucket_neutral (q : ℚ) (h1 : -((1 : ℚ) / 10) ≤ q)
    (h2 : q < (1 : ℚ) / 10) :
    findBucket q value_mapping = some neutralLbl := by
  simp only [value_mapping, findBucket]
  rw [← qHalf_eq, ← qTenth_eq]
  rw [if_neg (by rintro ⟨a, b⟩; linarith),
    if_neg (by rintro ⟨a, b⟩; linarith), if_pos ⟨h1, le_of_lt h2⟩]

/-- The fourth interval wins on [-1/2, -1/10). -/
lemma findBucket_sell (q : ℚ) (h1 : -((1 : ℚ) / 2) ≤ q)
    (h2 : q < -((1 : ℚ) / 10)) :
    findBucket q value_mapping = some sellLbl := by
  simp only [value_mapping, findBucket]
  rw [← qHalf_eq, ← qTenth_eq]
  rw [if_neg (by rintro ⟨a, b⟩; linarith),
    if_neg (by rintro ⟨a, b⟩; linarith),
    if_neg (by rintro ⟨a, b⟩; linarith), if_pos ⟨h1, le_of_lt h2⟩]

/-- The fifth interval wins on [-1, -1/2). -/
lemma findBucket_strong_sell (q : ℚ) (h1 : -1 ≤ q)
    (h2 : q < -((1 : ℚ) / 2)) :
    findBucket q value_mapping = some strongSellLbl := by
  simp only [value_mapping, findBucket]
  rw [← qHalf_eq, ← qTenth_eq]
  rw [if_neg (by rintro ⟨a, b⟩; linarith),
    if_neg (by rintro ⟨a, b⟩; linarith),
    if_neg (by rintro ⟨a, b⟩; linarith),
    if_neg (by rintro ⟨a, b⟩; linarith), if_pos ⟨h1, le_of_lt h2⟩]

/-- Outside [-1, 1] no interval matches. -/
lemma findBucket_none (q : ℚ) (h : q < -1 ∨ 1 < q) :
    findBucket q value_mapping = none := by
  simp only [value_mapping, findBucket]
  rw [← qHalf_eq, ← qTenth_eq]
  rw [if_neg (by rintro ⟨a, b⟩; rcases h with h | h <;> linarith),
    if_neg (by rintro ⟨a, b⟩; rcases h with h | h <;> linarith),
    if_neg (by rintro ⟨a, b⟩; rcases h with h | h <;> linarith),
    if_neg (by rintro ⟨a, b⟩; rcases h with h | h <;> linarith),
    if_neg (by rintro ⟨a, b⟩; rcases h with h | h <;> linarith)]

/-- A matched bucket is the classifier's successful result. -/
lemma create_recommendation_of_findBucket (q : ℚ) (lbl : String)
    (h : findBucket q value_mapping = some lbl) :
    create_recommendation (Val.num q) = Except.ok lbl := by
  simp [create_recommendation, h]

/-- C2: `_create_recommendation` tests the score against the five closed
intervals in the fixed order strong_buy [1/2, 1], buy [1/10, 1/2],
neutral [-1/10, 1/10], sell [-1/2, -1/10], strong_sell [-1, -1/2], first
match winning: every score in [1/2, 1] classifies as strong_buy, and the
shared boundaries 1/10, -1/10, -1/2 go to the earlier bucket in the
listed order (buy, neutral, sell respectively). -/
theorem claim_C2_classifier_order :
    (∀ s : ℚ, (1 : ℚ) / 2 ≤ s → s ≤ 1 →
       create_recommendation (Val.num s) = Except.ok strongBuyLbl)
    ∧ create_recommendation (Val.num ((1 : ℚ) / 10)) = Except.ok buyLbl
    ∧ create_recommendation (Val.num (-((1 : ℚ) / 10))) =
        Except.ok neutralLbl
    ∧ create_recommendation (Val.num (-((1 : ℚ) / 2))) = Except.ok sellLbl
    ∧ create_recommendation (Val.num (-1)) = Except.ok strongSellLbl
    ∧ create_recommendation (Val.num 1) = Except.ok strongBuyLbl
    ∧ value_mapping =
        [(strongBuyLbl, (1 : ℚ) / 2, 1),
         (buyLbl, (1 : ℚ) / 10, (1 : ℚ) / 2),
         (neutralLbl, -((1 : ℚ) / 10), (1 : ℚ) / 10),
         (sellLbl, -((1 : ℚ) / 2), -((1 : ℚ) / 10)),
         (strongSellLbl, -1, -((1 : ℚ) / 2))] := by
  refine ⟨fun s h1 h2 => create_recommendation_of_findBucket s _
    (findBucket_strong_buy s h1 h2), ?_, ?_, ?_, ?_, ?_,
    value_mapping_spec⟩
  · exact create_recommendation_of_findBucket _ _
      (findBucket_buy _ (by norm_num) (by norm_num))
  · exact create_recommendation_of_findBucket _ _
      (findBucket_neutral _ (by norm_num) (by norm_num))
  · exact create_recommendation_of_findBucket _ _
      (findBucket_sell _ (by norm_num) (by norm_num))
  · exact create_recommendation_of_findBucket _ _
      (findBucket_strong_sell _ (by norm_num) (by norm_num))
  · exact create_recommendation_of_findBucket _ _
      (findBucket_strong_buy _ (by norm_num) (by norm_num))

/-- Witness for C2 at the concrete score 3/4. -/
theorem claim_C2_classifier_order_witness :
    ((1 : ℚ) / 2 ≤ 3 / 4 ∧ (3 : ℚ) / 4 ≤ 1)
    ∧ create_recommendation (Val.num ((3 : ℚ) / 4)) =
        Except.ok strongBuyLbl :=
  ⟨⟨by norm_num, by norm_num⟩,
   claim_C2_classifier_order.1 ((3 : ℚ) / 4) (by norm_num) (by norm_num)⟩

/-- C6: `_create_recommendation` fails exactly on invalid input: a
non-numeric value (text or None) raises the ValueError with message
`msgBadValue` (InvalidInput), a numeric value outside [-1, 1] raises the
ValueError with message `msgNoBucket` (Unclassifiable) — in particular
3/2 and -2 do — and every numeric value inside [-1, 1] is classified
without error. -/
theorem claim_C6_classifier_domain :
    (∀ s : String, create_recommendation (Val.str s) =
        Except.error (PyErr.valueError msgBadValue))
    ∧ create_recommendation Val.null =
        Except.error (PyErr.valueError msgBadValue)
    ∧ (∀ q : ℚ, q < -1 ∨ 1 < q →
        create_recommendation (Val.num q) =
          Except.error (PyErr.valueError msgNoBucket))
    ∧ create_recommendation (Val.num ((3 : ℚ) / 2)) =
        Except.error (PyErr.valueError msgNoBucket)
    ∧ create_recommendation (Val.num (-2)) =
        Except.error (PyErr.valueError msgNoBucket)
    ∧ ∀ q : ℚ, -1 ≤ q → q ≤ 1 →
        ∃ lbl, create_recommendation (Val.num q) = Except.ok lbl := by
  have herr : ∀ q : ℚ, q < -1 ∨ 1 < q →
      create_recommendation (Val.num q) =
        Except.error (PyErr.valueError msgNoBucket) := by
    intro q h
    simp [create_recommendation, findBucket_none q h]
  refine ⟨fun s => rfl, rfl, herr, herr _ (Or.inr (by norm_num)),
    herr _ (Or.inl (by norm_num)), ?_⟩
  intro q h1 h2
  rcases le_or_lt ((1 : ℚ) / 2) q with h | h
  · exact ⟨strongBuyLbl, create_recommendation_of_findBucket q _
      (findBucket_strong_buy q h h2)⟩
  rcases le_or_lt ((1 : ℚ) / 10) q with h3 | h3
  · exact ⟨buyLbl, create_recommendation_of_findBucket q _
      (findBucket_buy q h3 h)⟩
  rcases le_or_lt (-((1 : ℚ) / 10)) q with h4 | h4
  · exact ⟨neutralLbl, create_recommendation_of_findBucket q _
      (findBucket_neutral q h4 h3)⟩
  rcases le_or_lt (-((1 : ℚ) / 2)) q with h5 | h5
  · exact ⟨sellLbl, create_recommendation_of_findBucket q _
      (findBucket_sell q h5 h4)⟩
  · exact ⟨strongSellLbl, create_recommendation_of_findBucket q _
      (findBucket_strong_sell q h1 h5)⟩

/-- Witness for C6 at the concrete inputs ZZZZ (text), 2, and 0. -/
theorem claim_C6_classifier_domain_witness :
    create_recommendation (Val.str tZZZZ) =
      Except.error (PyErr.valueError msgBadValue)
    ∧ create_recommendation (Val.num 2) =
        Except.error (PyErr.valueError msgNoBucket)
    ∧ ∃ lbl, create_recommendation (Val.num 0) = Except.ok lbl :=
  ⟨claim_C6_classifier_domain.1 tZZZZ,
   claim_C6_classifier_domain.2.2.1 2 (Or.inr (by norm_num)),
   claim_C6_classifier_domain.2.2.2.2.2 0 (by norm_num) (by norm_num)⟩

/-- Counterexample to C3: a present-but-empty data collection does not
fail with the distinct no-rows (EmptyDataset) error — `if not api_data`
treats it exactly like an absent collection, so both degenerate payloads
hit the missing-data-key raise site, and after the outer bare except both
are fully indistinguishable. -/
theorem claim_C3_counterexample :
    create_response_df_inner (Except.ok payloadEmptyData) colsTest =
      Except.error (PyErr.tradingview msgDataKey)
    ∧ create_response_df_inner (Except.ok payloadNoData) colsTest =
        Except.error (PyErr.tradingview msgDataKey)
    ∧ msgDataKey ≠ msgNoRows
    ∧ create_response_df (Except.ok payloadEmptyData) colsTest =
        create_response_df (Except.ok payloadNoData) colsTest :=
  ⟨rfl, rfl, by decide, rfl⟩

/-- C3 as amended: an absent data collection and a present-but-empty one
both fail at the same missing-data-key check (message `msgDataKey`), and
the outer bare except wraps either into the generic parse error; the
distinct no-rows error arises only for a nonempty collection all of whose
entries lack a truthy field-values array. -/
theorem claim_C3_degenerate_payload_errors (columns : List String)
    (entries : List Entry) (hne : entries ≠ [])
    (hall : ∀ e ∈ entries, truthyD e.d = false) :
    create_response_df_inner (Except.ok payloadNoData) columns =
      Except.error (PyErr.tradingview msgDataKey)
    ∧ create_response_df_inner (Except.ok payloadEmptyData) columns =
        Except.error (PyErr.tradingview msgDataKey)
    ∧ create_response_df_inner (Except.ok (Payload.mk (some entries)))
        columns = Except.error (PyErr.tradingview msgNoRows)
    ∧ create_response_df (Except.ok payloadNoData) columns =
        Except.error (PyErr.tradingview msgParse)
    ∧ create_response_df (Except.ok payloadEmptyData) columns =
        Except.error (PyErr.tradingview msgParse) := by
  refine ⟨rfl, rfl, ?_, rfl, rfl⟩
  cases entries with
  | nil => exact absurd rfl hne
  | cons e es =>
    have hfil : (e :: es).filter (fun x => truthyD x.d) = [] :=
      List.filter_eq_nil_iff.mpr fun a ha => by simp [hall a ha]
    have hrows : extractRows (e :: es) = [] := by
      simp [extractRows, hfil]
    have hred : create_response_df_inner
        (Except.ok (Payload.mk (some (e :: es)))) columns =
        (if (extractRows (e :: es)).isEmpty then
          Except.error (PyErr.tradingview msgNoRows)
        else do
          let df ← mkDataFrame columns (extractRows (e :: es))
          addRecommendation df) := rfl
    rw [hred, hrows]
    rfl

/-- Witness for the amended C3, with the one-entry collection whose entry
lacks its field-values array. -/
theorem claim_C3_degenerate_payload_errors_witness :
    create_response_df_inner (Except.ok (Payload.mk (some [eMissing])))
      colsTest = Except.error (PyErr.tradingview msgNoRows)
    ∧ create_response_df (Except.ok payloadEmptyData) colsTest =
        Except.error (PyErr.tradingview msgParse) := by
  have h := claim_C3_degenerate_payload_errors colsTest [eMissing]
    (List.cons_ne_nil _ _)
    (fun e he => by rw [List.mem_singleton] at he; subst he; rfl)
  exact ⟨h.2.2.1, h.2.2.2.2⟩

/-- Counterexample to C5: an entry that does carry its field-values
array, but an empty one, is also dropped — `if row.get("d", None)` tests
Python truthiness, not presence.  With one valid entry and one
empty-array entry the resulting DataFrame has 1 row, not the 2 the claim
predicts. -/
theorem claim_C5_counterexample :
    payloadPresentEmpty.data = some [eAAA, eEmptyArr]
    ∧ eEmptyArr.d = some []
    ∧ create_response_df_inner (Except.ok payloadPresentEmpty) colsTest =
        Except.ok dfOnlyA
    ∧ dfOnlyA.rows.length = 1 :=
  ⟨rfl, rfl, rfl, rfl⟩

/-- C5 as amended: the builder keeps exactly the entries whose
field-values array is truthy (present and nonempty), silently dropping
the rest — the row count equals the count of truthy entries, every truthy
entry's array appears among the rows, and the concrete well-formed
payload with 3 valid entries and 1 entry missing its array builds a
DataFrame with exactly 3 rows. -/
theorem claim_C5_drop_policy :
    (∀ entries : List Entry,
       (extractRows entries).length =
         entries.countP fun e => truthyD e.d)
    ∧ (∀ entries : List Entry, ∀ e ∈ entries, truthyD e.d = true →
        e.d.getD [] ∈ extractRows entries)
    ∧ create_response_df_inner fetchOK colsTest = Except.ok df31
    ∧ df31.rows.length = 3
    ∧ payload31.data = some [eAAA, eMissing, eBBB, eCCC] := by
  refine ⟨?_, ?_, rfl, rfl, rfl⟩
  · intro entries
    simp [extractRows, List.countP_eq_length_filter]
  · intro entries e he ht
    exact List.mem_map_of_mem _ (List.mem_filter.mpr ⟨he, ht⟩)

/-- Witness for the amended C5 at a concrete two-entry collection. -/
theorem claim_C5_drop_policy_witness :
    (extractRows [eAAA, eMissing]).length =
      List.countP (fun e => truthyD e.d) [eAAA, eMissing]
    ∧ eAAA.d.getD [] ∈ extractRows [eAAA, eMissing] :=
  ⟨claim_C5_drop_policy.1 [eAAA, eMissing],
   claim_C5_drop_policy.2.1 [eAAA, eMissing] eAAA (by simp) rfl⟩

/-- C1 is a code bug, evaluated here: with a successful fetch whose
payload builds fine (first conjunct), the first `_load_df` call on a
nonexistent cache path creates a directory at the path, then fails to
persist (IsADirectoryError from `to_csv`), leaving the directory and no
file; the second call takes the exists-branch and fails reading the
directory, with no second fetch (the counter stays at 1). -/
theorem claim_C1_cache_never_persisted :
    create_response_df fetchOK colsTest = Except.ok df31
    ∧ load_df fetchOK colsTest fs0 =
        (Except.error PyErr.isADirectoryError,
         FS.mk (some FSEntry.dir) 1)
    ∧ load_df fetchOK colsTest (FS.mk (some FSEntry.dir) 1) =
        (Except.error PyErr.isADirectoryError,
         FS.mk (some FSEntry.dir) 1) :=
  ⟨rfl, rfl, rfl⟩

/-- C7: persisting a DataFrame to the cache file and reading it back
yields the same DataFrame — the serialization is modelled as the faithful
tabular snapshot the spec calls durable, and the reload path recomputes
nothing. -/
theorem claim_C7_roundtrip (df : DataFrame) (fs fs1 : FS)
    (h : to_csv df fs = Except.ok fs1) :
    read_csv fs1 = Except.ok df := by
  rcases fs with ⟨e, c⟩
  cases e with
  | none =>
    simp only [to_csv] at h
    injection h with h1
    subst h1
    rfl
  | some entry =>
    cases entry with
    | file t =>
      simp only [to_csv] at h
      injection h with h1
      subst h1
      rfl
    | dir =>
      simp only [to_csv] at h
      exact absurd h (by simp)

/-- Witness for C7: write the built DataFrame onto the empty state and
read it back. -/
theorem claim_C7_roundtrip_witness :
    read_csv (FS.mk (some (FSEntry.file df31)) 0) = Except.ok df31 :=
  claim_C7_roundtrip df31 fs0 (FS.mk (some (FSEntry.file df31)) 0) rfl

/-- A filesystem state holding a file makes `_load_df` a pure read. -/
lemma load_df_file (fetch : Except PyErr Payload) (columns : List String)
    (fs : FS) (t : DataFrame) (hfs : fs.entry = some (FSEntry.file t)) :
    load_df fetch columns fs = (Except.ok t, fs) := by
  rcases fs with ⟨e, c⟩
  simp only at hfs
  subst hfs
  rfl

/-- Boolean filtering against a mask computed from the rows themselves is
filtering of the indexed rows by the row predicate. -/
lemma booleanFilter_map_eq (p : List Val → Bool) (rows : List (List Val)) :
    booleanFilter rows (rows.map p) =
      rows.enum.filter fun ir => p ir.2 := by
  suffices h : ∀ n, ((List.enumFrom n rows).zip (rows.map p)).filterMap
      (fun q => if q.2 then some q.1 else none) =
      (List.enumFrom n rows).filter fun ir => p ir.2 by
    simpa [booleanFilter, List.enum] using h 0
  intro n
  induction rows generalizing n with
  | nil => rfl
  | cons r rs ih =>
    cases hp : p r with
    | true =>
      simp [List.enumFrom, List.filterMap_cons, List.filter_cons, hp, ih]
    | false =>
      simp [List.enumFrom, List.filterMap_cons, List.filter_cons, hp, ih]

/-- C4: on a cached table, `check_stock_values` returns, without error,
exactly the rows whose name cell is a member of the tickers, in table
order, reshaped column-major: each column name maps to the mapping from
the original pre-filter row position to that row's cell; unmatched
tickers simply select nothing. -/
theorem claim_C4_check_values (fetch : Except PyErr Payload)
    (columns : List String) (t : DataFrame) (tickers : List String)
    (fs : FS) (hfs : fs.entry = some (FSEntry.file t)) (ni : Nat)
    (hni : colIdx t nameCol = Except.ok ni) :
    check_stock_values tickers fetch columns fs =
      (Except.ok (t.cols.enum.map fun jc =>
        (jc.2, ((t.rows.enum.filter fun ir =>
            match ir.2.getD ni Val.null with
            | Val.str s => tickers.contains s
            | _ => false).map fun ir => (ir.1, ir.2.getD jc.1 Val.null)))),
       fs) := by
  have hload := load_df_file fetch columns fs t hfs
  have hstep : check_stock_values tickers fetch columns fs =
      (Except.ok (toDictCols t.cols
        (booleanFilter t.rows (isinMask t ni tickers))), fs) := by
    simp only [check_stock_values, check_stock_values_inner, hload, hni]
  rw [hstep]
  rw [show isinMask t ni tickers = t.rows.map (fun r =>
      match r.getD ni Val.null with
      | Val.str s => tickers.contains s
      | _ => false) from rfl]
  rw [booleanFilter_map_eq]
  rfl

/-- Witness for C4: AAPL sits at row index 2 of the cached table, ZZZZ is
absent; the export holds exactly one row per column, keyed by the
original position 2, and no error is raised. -/
theorem claim_C4_check_values_witness :
    check_stock_values [tAAPL, tZZZZ] fetchFail colsTest
        (fsFile tableAAPL) =
      (Except.ok [(nameCol, [(2, Val.str tAAPL)]),
                  (recAllCol, [(2, Val.num 1)])],
       fsFile tableAAPL) := by
  have h := claim_C4_check_values fetchFail colsTest tableAAPL
    [tAAPL, tZZZZ] (fsFile tableAAPL) rfl 0 rfl
  exact h.trans (by rfl)

/-- C8: on a cached table carrying name and recommendation columns,
`get_stock_recommendations` returns a single string: the fixed preamble
concatenated with the serialized records projecting every row, in order,
onto its name and recommendation cells — one record per table row, no
filtering. -/
theorem claim_C8_recommendations (fetch : Except PyErr Payload)
    (columns : List String) (t : DataFrame) (fs : FS)
    (hfs : fs.entry = some (FSEntry.file t)) (ni ri : Nat)
    (hni : colIdx t nameCol = Except.ok ni)
    (hri : colIdx t recommendationCol = Except.ok ri) :
    get_stock_recommendations fetch columns fs =
      (Except.ok (preamble ++ renderRecords
        (t.rows.map fun r => (r.getD ni Val.null, r.getD ri Val.null))),
       fs)
    ∧ (t.rows.map fun r =>
        (r.getD ni Val.null, r.getD ri Val.null)).length =
        t.rows.length := by
  have hload := load_df_file fetch columns fs t hfs
  have hproj : projectRecords t = Except.ok
      (t.rows.map fun r => (r.getD ni Val.null, r.getD ri Val.null)) := by
    simp only [projectRecords, hni, hri]
    rfl
  constructor
  · simp only [get_stock_recommendations, hload, hproj]
  · exact List.length_map _ _

/-- Witness for C8 on a concrete two-row cached table. -/
theorem claim_C8_recommendations_witness :
    get_stock_recommendations fetchFail colsTest (fsFile tableRec) =
      (Except.ok (preamble ++ renderRecords
        [(Val.str tAAPL, Val.str buyLbl),
         (Val.str tBBB, Val.str sellLbl)]),
       fsFile tableRec) := by
  have h := (claim_C8_recommendations fetchFail colsTest tableRec
    (fsFile tableRec) rfl 0 1 rfl rfl).1
  exact h.trans (by rfl)

/-- `_load_df` performs at most one fetch per call. -/
lemma load_df_fetchCount (fetch : Except PyErr Payload)
    (columns : List String) (fs : FS) :
    (load_df fetch columns fs).2.fetchCount ≤ fs.fetchCount + 1 := by
  rcases fs with ⟨e, c⟩
  cases e with
  | none =>
    cases hb : create_response_df fetch columns with
    | error err => simp [load_df, mkdir, hb]
    | ok df => simp [load_df, mkdir, to_csv, hb]
  | some entry => simp [load_df]

/-- The public recommendation operation keeps the filesystem state of
its `_load_df` call. -/
lemma get_stock_recommendations_state (fetch : Except PyErr Payload)
    (columns : List String) (fs : FS) :
    (get_stock_recommendations fetch columns fs).2 =
      (load_df fetch columns fs).2 := by
  unfold get_stock_recommendations
  rcases hld : load_df fetch columns fs with ⟨r, fs1⟩
  cases r with
  | error e => simp
  | ok df =>
    cases hp : projectRecords df with
    | error e => simp [hp]
    | ok recs => simp [hp]

/-- The public ticker-lookup operation keeps the filesystem state of its
`_load_df` call. -/
lemma check_stock_values_state (tickers : List String)
    (fetch : Except PyErr Payload) (columns : List String) (fs : FS) :
    (check_stock_values tickers fetch columns fs).2 =
      (load_df fetch columns fs).2 := by
  unfold check_stock_values check_stock_values_inner
  rcases hld : load_df fetch columns fs with ⟨r, fs1⟩
  cases r with
  | error e => simp
  | ok df =>
    cases hc : colIdx df nameCol with
    | error e => simp [hc]
    | ok ni => simp [hc]

/-- C9: each public operation either succeeds or fails with exactly its
one TradingviewError carrying the operation's fixed message — no other
exception escapes — and a single invocation performs at most one network
fetch, so the first failure is terminal for that call. -/
theorem claim_C9_error_wrapping (fetch : Except PyErr Payload)
    (columns : List String) (tickers : List String) (fs : FS) :
    ((∃ s, (get_stock_recommendations fetch columns fs).1 = Except.ok s)
      ∨ (get_stock_recommendations fetch columns fs).1 =
          Except.error (PyErr.tradingview msgFetch))
    ∧ ((∃ d, (check_stock_values tickers fetch columns fs).1 =
          Except.ok d)
      ∨ (check_stock_values tickers fetch columns fs).1 =
          Except.error (PyErr.tradingview msgFind))
    ∧ (get_stock_recommendations fetch columns fs).2.fetchCount ≤
        fs.fetchCount + 1
    ∧ (check_stock_values tickers fetch columns fs).2.fetchCount ≤
        fs.fetchCount + 1 := by
  refine ⟨?_, ?_, ?_, ?_⟩
  · unfold get_stock_recommendations
    rcases hld : load_df fetch columns fs with ⟨r, fs1⟩
    cases r with
    | error e => simp
    | ok df =>
      cases hp : projectRecords df with
      | error e => simp [hp]
      | ok recs =>
        exact Or.inl ⟨preamble ++ renderRecords recs, by simp [hp]⟩
  · unfold check_stock_values check_stock_values_inner
    rcases hld : load_df fetch columns fs with ⟨r, fs1⟩
    cases r with
    | error e => simp
    | ok df =>
      cases hc : colIdx df nameCol with
      | error e => simp [hc]
      | ok ni =>
        exact Or.inl ⟨toDictCols df.cols
          (booleanFilter df.rows (isinMask df ni tickers)), by simp [hc]⟩
  · rw [get_stock_recommendations_state]
    exact load_df_fetchCount fetch columns fs
  · rw [check_stock_values_state]
    exact load_df_fetchCount fetch columns fs

/-- C10: when the cache path does not exist, `_load_df` creates a
directory (not a file) at that path before any attempt to persist; the
directory is in place afterwards whatever the build outcome, the call
itself fails, and every later call on a directory path takes the
exists-branch and fails reading the directory as CSV, leaving the state
untouched. -/
theorem claim_C10_mkdir_poisons_cache (fetch : Except PyErr Payload)
    (columns : List String) (fs : FS) (h : fs.entry = none) :
    (load_df fetch columns fs).2.entry = some FSEntry.dir
    ∧ (∃ e, (load_df fetch columns fs).1 = Except.error e)
    ∧ ∀ fs2 : FS, fs2.entry = some FSEntry.dir →
        load_df fetch columns fs2 =
          (Except.error PyErr.isADirectoryError, fs2) := by
  rcases fs with ⟨e, c⟩
  simp only at h
  subst h
  refine ⟨?_, ?_, ?_⟩
  · cases hb : create_response_df fetch columns with
    | error err => simp [load_df, mkdir, hb]
    | ok df => simp [load_df, mkdir, to_csv, hb]
  · cases hb : create_response_df fetch columns with
    | error err => exact ⟨err, by simp [load_df, mkdir, hb]⟩
    | ok df =>
        exact ⟨PyErr.isADirectoryError, by simp [load_df, mkdir, to_csv, hb]⟩
  · intro fs2 h2
    rcases fs2 with ⟨e2, c2⟩
    simp only at h2
    subst h2
    rfl

/-- Witness for C10: a failing fetch on the empty state still leaves a
directory behind, and a later call on the directory state fails without
touching it. -/
theorem claim_C10_mkdir_poisons_cache_witness :
    (load_df fetchFail colsTest fs0).2.entry = some FSEntry.dir
    ∧ (∃ e, (load_df fetchFail colsTest fs0).1 = Except.error e)
    ∧ load_df fetchFail colsTest fsDir =
        (Except.error PyErr.isADirectoryError, fsDir) := by
  have h := claim_C10_mkdir_poisons_cache fetchFail colsTest fs0 rfl
  exact ⟨h.1, h.2.1, h.2.2 fsDir rfl⟩

end TVMCP
